import Mathlib

/-!
Shallow embedding of the `flowist` GraphQL gateway
(`src/server/auth/src/lib.rs`, `src/server/api/src/graphql.rs`,
`src/server/api/src/main.rs`) and proofs about the claims of its
specification.

External collaborators (the storage layer and the `oso` policy engine)
enter the model as explicit function parameters; effects that matter to
the claims (performing a storage lookup, binding an address, serving
requests) are recorded as explicit traces.
-/

set_option autoImplicit false

namespace Flowist

/-- `src/server/auth/src/lib.rs`: `pub struct Subject(pub Option<String>)` —
the token's Subject claim, which corresponds with the username; `none`
means the request is anonymous. -/
structure Subject where
  username : Option String
  deriving DecidableEq, Repr

/-- The resolved domain identity record for a Subject's principal
identifier (the `User` the commented-out `ctx.users.get_by_username`
lookup in `graphql_handler` would return). -/
structure User where
  username : String
  deriving DecidableEq, Repr

/-- A handle to the pooled storage connection (`sea_orm::DatabaseConnection`);
the connection string it was opened with is the only datum the core ever
passes around. -/
structure DatabaseConnection where
  url : String
  deriving DecidableEq, Repr

/-- A storage-layer failure (`sea_orm::DbErr`), the error `Database::connect`
can return; in `Context::init` it is propagated as the startup error. -/
inductive DbErr where
  | connectFailed (msg : String)
  deriving DecidableEq, Repr

/-- The authorization engine handle (`oso::Oso`).  The policy language is
external; the handle carries only its loaded policies. -/
structure Oso where
  policies : List String
  deriving DecidableEq, Repr

/-- `Oso::new()` — a fresh engine with no policies loaded. -/
def Oso.new : Oso := ⟨[]⟩

/-- `Clone for Oso` — cloning yields an equal handle. -/
def Oso.clone (o : Oso) : Oso := o

/-- The outcome of one policy evaluation: allow or deny. -/
inductive Decision where
  | allow
  | deny
  deriving DecidableEq, Repr

/-- Internal failure to reach or evaluate the authorization engine
(the spec's PolicyEngineError). -/
inductive PolicyEngineError where
  | engineUnavailable (msg : String)
  deriving DecidableEq, Repr

/-- A scalar result value produced by a resolver. -/
inductive Value where
  | vStr (s : String)
  | vInt (n : Int)
  | vBool (b : Bool)
  deriving DecidableEq, Repr

/-- One structured error of the GraphQL response envelope: a message and
a path into the query. -/
structure FieldError where
  message : String
  path : List String
  deriving DecidableEq, Repr

/-- The typed Forbidden field error the Authorization Gate yields on
Deny or engine failure. -/
def forbiddenError (path : List String) : FieldError :=
  { message := "Forbidden", path := path }

/-- One entry of the type-map that `async_graphql` exposes to resolvers:
schema-level data (added by `SchemaBuilder::data`) and request-level data
(added by `Request::data`) both land here. -/
inductive CtxData where
  | osoData (o : Oso)
  | dbData (d : DatabaseConnection)
  | subjectData (s : Subject)
  | principalData (u : Option User)
  deriving DecidableEq, Repr

/-- A resolver: reads the request-scoped data bag and produces a value or
a field-error message. -/
def Resolver : Type := List CtxData → Except String Value

/-- One query-root or mutation-root module: a set of named fields, each
with its resolver.  (`UsersQuery` and `UsersMutation` in
`src/server/api/src/graphql.rs` are such modules, with no fields yet.) -/
structure ObjectModule where
  fields : List (String × Resolver)

/-- `src/server/api/src/graphql.rs`: `pub struct UsersQuery {}` — no fields. -/
def UsersQuery : ObjectModule := ⟨[]⟩

/-- `src/server/api/src/graphql.rs`: `pub struct UsersMutation {}` — no fields. -/
def UsersMutation : ObjectModule := ⟨[]⟩

/-- A build-time schema-composition failure. -/
inductive SchemaBuildError where
  | fieldCollision
  deriving DecidableEq, Repr

/-- The names of the fields a module declares. -/
def ObjectModule.names (m : ObjectModule) : List String :=
  m.fields.map Prod.fst

/-- Modelled from the spec: the field-merging step of the
`#[derive(MergedObject)]` attribute lives in the `async_graphql` library,
not under `src/`; per spec §4.3 the Schema Composer merges the named
field sets of independently authored modules and fails at build time —
not at request time — when two modules declare conflicting field names
on the same root. -/
def mergeObjects (a b : ObjectModule) : Except SchemaBuildError ObjectModule :=
  if a.names.any (fun n => b.names.contains n) then
    .error .fieldCollision
  else
    .ok ⟨a.fields ++ b.fields⟩

/-- `src/server/api/src/graphql.rs`: `pub struct Query(UsersQuery)` with
`#[derive(MergedObject)]` — the merge of the single module `UsersQuery`. -/
def Query : ObjectModule := ⟨UsersQuery.fields⟩

/-- `src/server/api/src/graphql.rs`: `pub struct Mutation(UsersMutation)`
with `#[derive(MergedObject)]` — the merge of the single module
`UsersMutation`. -/
def Mutation : ObjectModule := ⟨UsersMutation.fields⟩

/-- `src/server/api/src/main.rs`: `pub struct Context` — the process-wide
runtime context bundling the database connection handle and the
authorization engine.  No mutating operation is defined on it. -/
structure Context where
  db : DatabaseConnection
  oso : Oso
  deriving DecidableEq, Repr

/-- `Context::init` (`src/server/api/src/main.rs` lines 28–35): one-time,
fallible setup.  The external `sea_orm::Database::connect` is passed in as
a function; the source calls it on the empty connection string and
propagates its error with `?`, otherwise bundles the fresh `Oso::new()`
engine with the connection. -/
def Context.init (connect : String → Except DbErr DatabaseConnection) :
    Except DbErr Context :=
  match connect "" with
  | .error e => .error e
  | .ok db => .ok { oso := Oso.new, db := db }

/-- A GraphQL request envelope after `GraphQLRequest::into_inner()`: the
parsed top-level selections of the document plus the request-scoped data
bag filled by `Request::data`. -/
structure GraphQLRequest where
  selections : List String
  requestData : List CtxData

/-- `async_graphql::Request::data` — adds one entry to the request-scoped
data bag. -/
def GraphQLRequest.dataAdd (req : GraphQLRequest) (d : CtxData) : GraphQLRequest :=
  { req with requestData := req.requestData ++ [d] }

/-- The GraphQL response envelope: a data tree (per-field, possibly null
results) and a list of structured errors. -/
structure GraphQLResponse where
  data : List (String × Option Value)
  errors : List FieldError
  deriving DecidableEq, Repr

/-- The per-field outcome inside one execution. -/
structure FieldResult where
  value : Option Value
  errors : List FieldError
  deriving DecidableEq, Repr

/-- Execute one requested top-level field against a root module: run its
resolver on the data bag, turning a resolver error into a field error
whose path is the field name; an unknown field yields a field error and
no data. -/
def executeField (root : ObjectModule) (bag : List CtxData) (n : String) :
    FieldResult :=
  match root.fields.find? (fun f => f.1 == n) with
  | some f =>
    match f.2 bag with
    | .ok v => { value := some v, errors := [] }
    | .error msg => { value := none, errors := [{ message := msg, path := [n] }] }
  | none => { value := none, errors := [{ message := "Unknown field", path := [n] }] }

/-- Execute a selection set against a root module: per GraphQL semantics
each field resolves independently (a field error does not abort sibling
fields) and the errors are collected into one list. -/
def executeRoot (root : ObjectModule) (bag : List CtxData) (sels : List String) :
    GraphQLResponse :=
  let results := sels.map (fun n => (n, executeField root bag n))
  { data := results.map (fun p => (p.1, p.2.value)),
    errors := results.foldr (fun p acc => p.2.errors ++ acc) [] }

/-- `pub type GraphQLSchema = Schema<Query, Mutation, EmptySubscription>`:
the composed, immutable schema — its two root modules plus the
schema-level data attached by `SchemaBuilder::data`. -/
structure GraphQLSchema where
  query : ObjectModule
  mutation : ObjectModule
  schemaData : List CtxData

/-- `Schema::execute`: runs the request's selections against the query
root, with the data bag visible to resolvers being the schema-level data
followed by the request-scoped data.  It is a total function: every
failure becomes an entry of the response's error list, never an
exception. -/
def GraphQLSchema.execute (s : GraphQLSchema) (req : GraphQLRequest) :
    GraphQLResponse :=
  executeRoot s.query (s.schemaData ++ req.requestData) req.selections

/-- `async_graphql::Schema::build` — starts a builder with the roots and
an empty data map. -/
structure SchemaBuilder where
  query : ObjectModule
  mutation : ObjectModule
  builderData : List CtxData

/-- `Schema::build(query, mutation, subscription)` (the subscription root
is `EmptySubscription`). -/
def Schema.build (q m : ObjectModule) : SchemaBuilder :=
  { query := q, mutation := m, builderData := [] }

/-- `SchemaBuilder::data` — attaches one schema-level datum. -/
def SchemaBuilder.dataAdd (b : SchemaBuilder) (d : CtxData) : SchemaBuilder :=
  { b with builderData := b.builderData ++ [d] }

/-- `SchemaBuilder::finish` — seals the builder into the schema. -/
def SchemaBuilder.finish (b : SchemaBuilder) : GraphQLSchema :=
  { query := b.query, mutation := b.mutation, schemaData := b.builderData }

/-- `create_schema` (`src/server/api/src/graphql.rs` lines 21–28): builds
the schema from the default roots, attaches a clone of the context's
authorization engine as schema data, and wraps the result in `Ok` — the
body has no failing branch. -/
def create_schema (ctx : Context) : Except SchemaBuildError GraphQLSchema :=
  .ok (((Schema.build Query Mutation).dataAdd
    (CtxData.osoData ctx.oso.clone)).finish)

/-- `graphql_handler` (`src/server/api/src/main.rs` lines 51–70).  The
first component is the response handed back to the transport; the second
counts the storage lookups performed while resolving the principal — the
`ctx.users.get_by_username` call of the source is commented out, so both
branches of the `if let` perform none and bind `None`.  The source then
adds the Subject and a `None` principal to the request data and executes
the request against the schema. -/
def graphql_handler (schema : GraphQLSchema) (sub : Subject)
    (req : GraphQLRequest) : GraphQLResponse × Nat :=
  let userLookups : Option User × Nat :=
    match sub with
    | ⟨some _username⟩ => (none, 0)
    | ⟨none⟩ => (none, 0)
  let request := (req.dataAdd (CtxData.subjectData sub)).dataAdd
    (CtxData.principalData none)
  (schema.execute request, userLookups.2)

/-- The Subject carried by a request-scoped data bag (what a resolver
recovers when it asks the context for the `Subject` datum); a bag without
one is read as anonymous. -/
def subjectIn (bag : List CtxData) : Subject :=
  match bag.findSome? (fun d => match d with | .subjectData s => some s | _ => none) with
  | some s => s
  | none => ⟨none⟩

/-- Modelled from the spec: no resolver exists under `src/` (the two root
modules declare no fields and the gate's call site in `graphql_handler`
is commented out), so the Authorization Gate of spec §4.5 is modelled
from its words: a resolver guarding protected data queries the engine
with (Subject, action, resource); only an explicit Allow returns the
protected data, while Deny or any engine failure yields the typed
Forbidden field error — fail-closed. -/
def protectedResolver
    (check : Subject → String → String → Except PolicyEngineError Decision)
    (action resource : String) (protectedData : Value) : Resolver :=
  fun bag =>
    match check (subjectIn bag) action resource with
    | .ok .allow => .ok protectedData
    | .ok .deny => .error "Forbidden"
    | .error _ => .error "Forbidden"

/-- The HTTP methods the router distinguishes. -/
inductive Method where
  | get
  | post
  deriving DecidableEq, Repr

/-- A transport-level request: method, path and raw body. -/
structure HttpRequest where
  method : Method
  path : String
  body : String
  deriving DecidableEq, Repr

/-- A transport-level response: status code and raw body. -/
structure HttpResponse where
  status : Nat
  body : String
  deriving DecidableEq, Repr

/-- A flat JSON scalar, enough for the liveness body. -/
inductive JsonVal where
  | jstr (s : String)
  | jbool (b : Bool)
  deriving DecidableEq, Repr

/-- Compact serde_json serialization of a scalar. -/
def JsonVal.serialize : JsonVal → String
  | .jstr s => "\"" ++ s ++ "\""
  | .jbool b => if b then "true" else "false"

/-- Compact serde_json serialization of a flat object (serde_json's
`Value::Object` iterates its keys in sorted order; the caller lists them
sorted). -/
def jsonObject (kvs : List (String × JsonVal)) : String :=
  "\x7b" ++ String.intercalate ","
    (kvs.map (fun kv => "\"" ++ kv.1 ++ "\":" ++ kv.2.serialize)) ++ "\x7d"

/-- `health_handler` (`src/server/api/src/main.rs` lines 38–44): builds
`json!({"code": "200", "success": true})`, serializes it with
`.to_string()` and returns the string; a `String` axum response carries
status 200. -/
def health_handler : HttpResponse :=
  { status := 200,
    body := jsonObject [("code", JsonVal.jstr "200"), ("success", JsonVal.jbool true)] }

/-- The handlers the router can dispatch to. -/
inductive RouteHandler where
  | helloWorld
  | graphiqlPage
  | graphqlPost
  deriving DecidableEq, Repr

/-- The route table of `router()` (`src/server/api/src/main.rs` lines
72–78): `/` answers GET with the hello-world closure, `/graphql` answers
GET with the GraphiQL page and POST with `graphql_handler`.  No other
route is registered — in particular none for `/health`. -/
def router (m : Method) (path : String) : Option RouteHandler :=
  if path = "/" then
    match m with
    | .get => some .helloWorld
    | .post => none
  else if path = "/graphql" then
    match m with
    | .get => some .graphiqlPage
    | .post => some .graphqlPost
  else
    none

/-- Dispatching one request through the axum router: a matched route runs
its handler; a matched path with the wrong method gets axum's 405; an
unmatched path falls through to axum's default fallback — 404 with an
empty body.  `handle` stands for the handler bodies (the routes' async
functions). -/
def routerCall (handle : RouteHandler → HttpRequest → HttpResponse)
    (req : HttpRequest) : HttpResponse :=
  if req.path = "/" ∨ req.path = "/graphql" then
    match router req.method req.path with
    | some h => handle h req
    | none => { status := 405, body := "" }
  else
    { status := 404, body := "" }

/-- The effects the program entry can perform, in the order they appear
in the source. -/
inductive Effect where
  | initTracing
  | initContext
  | buildRouter
  | bindServer
  | serveRequests
  deriving DecidableEq, Repr

/-- The bound-but-not-driven hyper server value `run` returns. -/
structure Server where
  host : List Nat
  port : Nat
  deriving DecidableEq, Repr

/-- `run` (`src/server/api/src/main.rs` lines 80–91): builds the router,
binds the listener on 127.0.0.1:3000 and returns `Ok(server)` — the
returned future is never awaited inside `run`, so the trace holds no
`serveRequests` effect. -/
def run (_context : Context) : Except DbErr Server × List Effect :=
  (.ok { host := [127, 0, 0, 1], port := 3000 }, [.buildRouter, .bindServer])

/-- `main` (`src/server/api/src/main.rs` lines 93–106): initializes
tracing, initializes the runtime `Context` (propagating its error with
`?`) and immediately returns `Ok(())`; it never calls `run`, so no
router is built, no address bound and no request served. -/
def main (connect : String → Except DbErr DatabaseConnection) :
    Except DbErr Unit × List Effect :=
  match Context.init connect with
  | .error e => (.error e, [.initTracing, .initContext])
  | .ok _context => (.ok (), [.initTracing, .initContext])

/-- A schema whose query root exposes one protected field guarded by the
modelled Authorization Gate, with the engine handle attached as schema
data the way `create_schema` attaches it. -/
def protectedSchema
    (check : Subject → String → String → Except PolicyEngineError Decision)
    (oso : Oso) (action resource name : String) (d : Value) : GraphQLSchema :=
  { query := ⟨[(name, protectedResolver check action resource d)]⟩,
    mutation := Mutation,
    schemaData := [CtxData.osoData oso] }

/-- A concrete runtime context used to evaluate the schema-composition
claims on explicit inputs. -/
def sampleContext : Context :=
  { db := { url := "db" }, oso := Oso.new }

/-- The schema-level data of a schema-build result (empty when the build
failed). -/
def schemaDataOf : Except SchemaBuildError GraphQLSchema → List CtxData
  | .ok s => s.schemaData
  | .error _ => []

/-- A one-field query module used to evaluate the composition claims on
explicit inputs. -/
def moduleA : ObjectModule := ⟨[("a", fun _ => .ok (Value.vInt 1))]⟩

/-- A second one-field query module, with a distinct field name. -/
def moduleB : ObjectModule := ⟨[("b", fun _ => .ok (Value.vInt 2))]⟩

/-- The merge of `moduleA` with `moduleB`, in that order. -/
def moduleAB : ObjectModule := ⟨moduleA.fields ++ moduleB.fields⟩

/-- The merge of `moduleB` with `moduleA`, in that order. -/
def moduleBA : ObjectModule := ⟨moduleB.fields ++ moduleA.fields⟩

/-! ## Theorems about the claims -/

/-- Claim C2, as stated, is false: the execution context that
`create_schema` attaches to the composed schema holds only the cloned
authorization engine, not the database handle.  On the concrete
`sampleContext` the attached data contains no database-handle entry. -/
theorem schema_data_missing_db_cex :
    CtxData.dbData sampleContext.db ∉ schemaDataOf (create_schema sampleContext) := by
  decide

/-- Claim C2 (amended): for every runtime Context, `create_schema`
succeeds and attaches exactly the context's authorization engine to the
schema's execution context; no database-handle entry is ever attached. -/
theorem schema_data_oso_only (ctx : Context) :
    ∃ s, create_schema ctx = .ok s ∧
      CtxData.osoData ctx.oso ∈ s.schemaData ∧
      ∀ d, CtxData.dbData d ∉ s.schemaData := by
  refine ⟨_, rfl, ?_, ?_⟩
  · simp [Schema.build, SchemaBuilder.dataAdd, SchemaBuilder.finish, Oso.clone]
  · intro d hd
    simp [Schema.build, SchemaBuilder.dataAdd, SchemaBuilder.finish] at hd

/-- Claim C3: for every schema, Subject and request, `graphql_handler`
binds the Subject and the (absent) principal record into the executed
request's data bag, hands that request to `Schema::execute`, and returns
the structured response the execution produces.  The handler is a total
function into the response envelope: nothing escapes past this boundary. -/
theorem graphql_handler_binds_and_executes (schema : GraphQLSchema)
    (sub : Subject) (req : GraphQLRequest) :
    ∃ bound : GraphQLRequest,
      graphql_handler schema sub req = (schema.execute bound, 0) ∧
      CtxData.subjectData sub ∈ bound.requestData ∧
      CtxData.principalData none ∈ bound.requestData := by
  refine ⟨(req.dataAdd (CtxData.subjectData sub)).dataAdd (CtxData.principalData none),
    ?_, ?_, ?_⟩
  · obtain ⟨u⟩ := sub
    cases u <;> rfl
  · simp [GraphQLRequest.dataAdd]
  · simp [GraphQLRequest.dataAdd]

/-- Claim C4: `Context::init` propagates the storage-connection error
when the connection cannot be established, and otherwise returns the
handle bundling the fresh connection with the fresh authorization
engine.  (`Context` exposes no mutating operation; the model is an
immutable structure.) -/
theorem context_init_spec (connect : String → Except DbErr DatabaseConnection) :
    (∀ e, connect "" = .error e → Context.init connect = .error e) ∧
    (∀ db, connect "" = .ok db →
      Context.init connect = .ok { db := db, oso := Oso.new }) := by
  constructor <;> intro x h <;> simp [Context.init, h]

/-- Witness for C4 at a failing and at a succeeding connect function. -/
theorem context_init_spec_witness :
    Context.init (fun _ => .error (DbErr.connectFailed "refused")) =
      .error (DbErr.connectFailed "refused") ∧
    Context.init (fun _ => .ok { url := "db" }) =
      .ok { db := { url := "db" }, oso := Oso.new } :=
  ⟨(context_init_spec _).1 _ rfl, (context_init_spec _).2 _ rfl⟩

/-- Claim C6: the principal lookup is lazy — when the Subject carries no
principal identifier the handler performs no storage lookup (its lookup
count is zero) — and the absent principal never fails the request: the
handler still executes the document, with the principal bound as `none`
in the request data. -/
theorem principal_lookup_lazy (schema : GraphQLSchema) (sub : Subject)
    (req : GraphQLRequest) :
    (sub.username = none → (graphql_handler schema sub req).2 = 0) ∧
    (graphql_handler schema sub req).1 =
      schema.execute ((req.dataAdd (CtxData.subjectData sub)).dataAdd
        (CtxData.principalData none)) := by
  obtain ⟨u⟩ := sub
  cases u <;> exact ⟨fun _ => rfl, rfl⟩

/-- Witness for C6: an anonymous Subject on the repository's composed
roots triggers no lookup. -/
theorem principal_lookup_lazy_witness :
    (graphql_handler { query := Query, mutation := Mutation, schemaData := [] }
      ⟨none⟩ { selections := [], requestData := [] }).2 = 0 :=
  (principal_lookup_lazy _ ⟨none⟩ _).1 rfl

/-- Claim C9: `create_schema` is total and its error branch is
unreachable — for every runtime Context it returns `Ok` with the built
schema and never an error, despite the fallible signature. -/
theorem create_schema_total (ctx : Context) :
    (∃ s, create_schema ctx = .ok s) ∧ ∀ e, create_schema ctx ≠ .error e := by
  refine ⟨⟨_, rfl⟩, fun e h => ?_⟩
  simp [create_schema] at h

/-- Claim C10: `main` performs only the tracing and context
initialization effects — it never builds the router, binds the listener
or serves a request — and returns `Ok(())` once the context
initializes; `run` itself only constructs and returns the bound server
without ever reaching the serving effect. -/
theorem main_never_serves (connect : String → Except DbErr DatabaseConnection) :
    (Effect.serveRequests ∉ (main connect).2 ∧
      Effect.bindServer ∉ (main connect).2 ∧
      Effect.buildRouter ∉ (main connect).2) ∧
    (∀ db, connect "" = .ok db →
      main connect = (.ok (), [Effect.initTracing, Effect.initContext])) ∧
    (∀ ctx : Context,
      (run ctx).1 = .ok { host := [127, 0, 0, 1], port := 3000 } ∧
      Effect.serveRequests ∉ (run ctx).2) := by
  refine ⟨?_, ?_, ?_⟩
  · unfold main
    cases Context.init connect <;> simp
  · intro db h
    have hinit : Context.init connect = .ok { db := db, oso := Oso.new } := by
      simp [Context.init, h]
    simp [main, hinit]
  · intro ctx
    exact ⟨rfl, by simp [run]⟩

/-- Witness for C10 at a connect function that succeeds. -/
theorem main_never_serves_witness :
    main (fun _ => .ok { url := "db" }) =
      (.ok (), [Effect.initTracing, Effect.initContext]) :=
  (main_never_serves _).2.1 { url := "db" } rfl

/-- Claim C5 is right about `health_handler` but the code never routes
it: the router registers no `/health` route, so a GET to `/health` falls
through to the 404 fallback with an empty body, while the defined (and
documented) health handler would have produced exactly the specified 200
response with body `{"code":"200","success":true}`. -/
theorem health_route_unregistered :
    router Method.get "/health" = none ∧
    (∀ handle, routerCall handle
        { method := Method.get, path := "/health", body := "" } =
      { status := 404, body := "" }) ∧
    health_handler =
      { status := 200, body := "\x7b\"code\":\"200\",\"success\":true\x7d" } := by
  refine ⟨rfl, fun handle => ?_, rfl⟩
  simp [routerCall]

/-- Claim C8: every request whose path is registered by neither route of
the router — `/` and `/graphql` are the only two — matches nothing and
falls through to the fallback response: status 404 with an empty body. -/
theorem unmatched_route_404 (handle : RouteHandler → HttpRequest → HttpResponse)
    (req : HttpRequest) (h1 : req.path ≠ "/") (h2 : req.path ≠ "/graphql") :
    routerCall handle req = { status := 404, body := "" } ∧
    router req.method req.path = none := by
  constructor
  · simp [routerCall, h1, h2]
  · simp [router, h1, h2]

/-- Witness for C8: a POST to `/does-not-exist` gets the 404 fallback. -/
theorem unmatched_route_404_witness :
    routerCall (fun _ _ => { status := 200, body := "" })
        { method := Method.post, path := "/does-not-exist", body := "" } =
      { status := 404, body := "" } ∧
    router Method.post "/does-not-exist" = none :=
  unmatched_route_404 _ _ (by decide) (by decide)

/-- Claim C7: module composition is total and commutative — the merge of
two modules fails (at build time, with the collision error) exactly when
the two modules share a field name, failure is independent of the merge
order, and when both orders succeed the merged modules declare the same
field-name set. -/
theorem merge_commutative_total (a b : ObjectModule) :
    (mergeObjects a b = .error .fieldCollision ↔ ∃ n ∈ a.names, n ∈ b.names) ∧
    (mergeObjects a b = .error .fieldCollision ↔
      mergeObjects b a = .error .fieldCollision) ∧
    (∀ m m', mergeObjects a b = .ok m → mergeObjects b a = .ok m' →
      ∀ n, n ∈ m.names ↔ n ∈ m'.names) := by
  have hcond : ∀ x y : ObjectModule,
      (x.names.any (fun n => y.names.contains n) = true) ↔
        ∃ n ∈ x.names, n ∈ y.names := by
    intro x y
    simp [List.any_eq_true]
  have herr : ∀ x y : ObjectModule,
      mergeObjects x y = .error .fieldCollision ↔ ∃ n ∈ x.names, n ∈ y.names := by
    intro x y
    unfold mergeObjects
    by_cases h : (x.names.any fun n => y.names.contains n) = true
    · rw [if_pos h]
      exact ⟨fun _ => (hcond x y).mp h, fun _ => rfl⟩
    · rw [if_neg h]
      exact ⟨fun hok => Except.noConfusion hok,
        fun hex => absurd ((hcond x y).mpr hex) h⟩
  have hsymm : (∃ n ∈ a.names, n ∈ b.names) ↔ ∃ n ∈ b.names, n ∈ a.names := by
    constructor <;> rintro ⟨n, h1, h2⟩ <;> exact ⟨n, h2, h1⟩
  refine ⟨herr a b, by rw [herr a b, herr b a]; exact hsymm, ?_⟩
  intro m m' hab hba n
  unfold mergeObjects at hab hba
  by_cases h : (a.names.any fun n => b.names.contains n) = true
  · rw [if_pos h] at hab
    exact Except.noConfusion hab
  · have hb : ¬ (b.names.any fun n => a.names.contains n) = true := fun hbb =>
      h ((hcond a b).mpr (hsymm.mpr ((hcond b a).mp hbb)))
    rw [if_neg h] at hab
    rw [if_neg hb] at hba
    cases hab
    cases hba
    simp only [ObjectModule.names, List.map_append, List.mem_append]
    tauto

/-- Witness for C7: the disjoint modules `moduleA` and `moduleB` merge in
both orders to the same field-name set. -/
theorem merge_commutative_total_witness :
    "a" ∈ moduleAB.names ↔ "a" ∈ moduleBA.names :=
  (merge_commutative_total moduleA moduleB).2.2 moduleAB moduleBA rfl rfl "a"

/-- Claim C1: fail-closed authorization.  Running a request for a
gate-protected field through `graphql_handler`, if the engine check on
(Subject, action, resource) returns Deny or fails, the field's result is
null and the typed Forbidden error with the field's path is in the
response's error list — the protected data is absent; on an explicit
Allow the data flows with no error; and whenever any data is returned
for the field, the check was an explicit Allow and the data is the
protected value. -/
theorem gate_fail_closed
    (check : Subject → String → String → Except PolicyEngineError Decision)
    (oso : Oso) (sub : Subject) (action resource name : String) (d : Value) :
    (check sub action resource ≠ .ok .allow →
      (graphql_handler (protectedSchema check oso action resource name d) sub
          { selections := [name], requestData := [] }).1 =
        { data := [(name, none)], errors := [forbiddenError [name]] }) ∧
    (check sub action resource = .ok .allow →
      (graphql_handler (protectedSchema check oso action resource name d) sub
          { selections := [name], requestData := [] }).1 =
        { data := [(name, some d)], errors := [] }) ∧
    (∀ v, (name, some v) ∈
        (graphql_handler (protectedSchema check oso action resource name d) sub
          { selections := [name], requestData := [] }).1.data →
      check sub action resource = .ok .allow ∧ v = d) := by
  have hsubj : subjectIn [CtxData.osoData oso, CtxData.subjectData sub,
      CtxData.principalData none] = sub := rfl
  rcases hc : check sub action resource with e | dec
  · have hr : (graphql_handler (protectedSchema check oso action resource name d) sub
        { selections := [name], requestData := [] }).1 =
        { data := [(name, none)], errors := [forbiddenError [name]] } := by
      simp [graphql_handler, protectedSchema, GraphQLSchema.execute, executeRoot,
        executeField, protectedResolver, GraphQLRequest.dataAdd, List.find?,
        hsubj, hc, forbiddenError]
    refine ⟨fun _ => hr, fun hal => Except.noConfusion hal, ?_⟩
    intro v hv
    rw [hr] at hv
    simp at hv
  · cases dec with
    | allow =>
      have hr : (graphql_handler (protectedSchema check oso action resource name d) sub
          { selections := [name], requestData := [] }).1 =
          { data := [(name, some d)], errors := [] } := by
        simp [graphql_handler, protectedSchema, GraphQLSchema.execute, executeRoot,
          executeField, protectedResolver, GraphQLRequest.dataAdd, List.find?,
          hsubj, hc]
      refine ⟨fun hne => absurd rfl hne, fun _ => hr, ?_⟩
      intro v hv
      rw [hr] at hv
      simp at hv
      exact ⟨rfl, hv⟩
    | deny =>
      have hr : (graphql_handler (protectedSchema check oso action resource name d) sub
          { selections := [name], requestData := [] }).1 =
          { data := [(name, none)], errors := [forbiddenError [name]] } := by
        simp [graphql_handler, protectedSchema, GraphQLSchema.execute, executeRoot,
          executeField, protectedResolver, GraphQLRequest.dataAdd, List.find?,
          hsubj, hc, forbiddenError]
      refine ⟨fun _ => hr, fun hal => ?_, ?_⟩
      · simp at hal
      · intro v hv
        rw [hr] at hv
        simp at hv

/-- Witness for C1: a deny-everything engine on a concrete protected
field yields the null field and the Forbidden error. -/
theorem gate_fail_closed_witness :
    (graphql_handler (protectedSchema (fun _ _ _ => .ok .deny) Oso.new
        "read" "user" "user" (Value.vStr "secret"))
        ⟨some "alice"⟩ { selections := ["user"], requestData := [] }).1 =
      { data := [("user", none)], errors := [forbiddenError ["user"]] } :=
  (gate_fail_closed (fun _ _ _ => .ok .deny) Oso.new ⟨some "alice"⟩
    "read" "user" "user" (Value.vStr "secret")).1 (by simp)

end Flowist
